import Mathlib

/-!
Shallow embedding of the full-text forced-render module of `diffeo/pdf.js`
(`src/web/full_text_render.js`, and the earlier variant `src/unnamed/part_000`).

The module is a coordination layer: it walks the external viewer's page views,
forces not-yet-rendered pages to render, watches for the renderer pausing the
forced page, aggregates per-page `textlayerrendered` events into a completion
count, and — in the second variant — gates a highlighting feature on an
average-word-length heuristic over the rendered text.

JavaScript side effects are made explicit: render instructions issued through
`view.renderingQueue.renderView(view)` are collected in lists, DOM mutations
become explicit record updates, and callbacks that may throw return a
`JSResult` (`ret` for a defined return value, `undef` for `undefined`, `exn`
for a thrown exception). JavaScript numbers are modelled with `Int`/`Rat`,
plus an explicit `JsNum` type for the NaN/Infinity outcomes of division.
-/

namespace FullTextRender

/-- Rendering states of a page view, from `pdf_rendering_queue`'s
`RenderingStates` enum (that file is outside this repository; the module
only ever distinguishes `PAUSED` from every other state). -/
inductive RenderingStates where
  | INITIAL
  | RUNNING
  | PAUSED
  | FINISHED
deriving DecidableEq, Repr

/-- The realized text-layer DOM node; only its child-node count is inspected
(`view.textLayer.textLayerDiv.childNodes.length`). -/
structure TextLayerDiv where
  childNodes : Nat
deriving DecidableEq, Repr

/-- The text-layer handle of a page view. -/
structure TextLayer where
  textLayerDiv : TextLayerDiv
deriving DecidableEq, Repr

/-- An in-flight paint task; `promise` is the opaque completion handle
(`paintTask.promise`), modelled by an identifier. -/
structure PaintTask where
  promise : Nat
deriving DecidableEq, Repr

/-- A page view from `PDFViewerApplication.pdfViewer._pages`. `id` is the
view's identity; the other fields are the attributes the module reads.
The view's `renderingQueue.renderView` capability is modelled by recording
the view in a list of issued render instructions. -/
structure View where
  id : Nat
  renderingState : RenderingStates
  paintTask : Option PaintTask
  textLayer : Option TextLayer
deriving DecidableEq, Repr

/-- Outcome of one JavaScript callback invocation: a defined return value,
`undefined`, or a thrown exception. -/
inductive JSResult (ρ : Type) where
  | ret (r : ρ)
  | undef
  | exn
deriving DecidableEq, Repr

/-- The loop body of `forEachView`, counting the index down. Fuel `n + 1`
means the current index is `n`; fuel `0` means the loop is done. Callbacks
may carry state `σ` (the JavaScript callbacks mutate captured variables);
a thrown exception (`exn`) is caught and iteration continues, a defined
return value stops iteration. -/
def forEachViewAux (pages : List View) (visit : σ → View → σ × JSResult ρ) :
    σ → Nat → σ × Option ρ
  | s, 0 => (s, none)
  | s, n + 1 =>
    match pages[n]? with
    | none => forEachViewAux pages visit s n
    | some v =>
      match visit s v with
      | (s', JSResult.ret r) => (s', some r)
      | (s', JSResult.undef) => forEachViewAux pages visit s' n
      | (s', JSResult.exn) => forEachViewAux pages visit s' n

/-- `forEachView(callback)`: iterates over the page collection from the last
index down to the first, catching per-view exceptions, stopping at the first
defined return value; returns `undefined` (`none`) when no visit returns a
defined value. -/
def forEachView (pages : List View) (visit : σ → View → σ × JSResult ρ)
    (s : σ) : σ × Option ρ :=
  forEachViewAux pages visit s pages.length

/-- Modelled from the spec (§4.1), for comparison with `forEachView`: a
straight scan of a view list that threads the callback state, skips
`undefined` and thrown outcomes, and stops at the first defined value. -/
def forEachViewSpecScan (l : List View) (visit : σ → View → σ × JSResult ρ)
    (s : σ) : σ × Option ρ :=
  match l with
  | [] => (s, none)
  | v :: rest =>
    match visit s v with
    | (s', JSResult.ret r) => (s', some r)
    | (s', JSResult.undef) => forEachViewSpecScan rest visit s'
    | (s', JSResult.exn) => forEachViewSpecScan rest visit s'

/-- `getAllRenderPromises()`: collects `paintTask.promise` of every view whose
rendering state is not `PAUSED` and which has a paint task. The callback
never returns a defined value, so the whole collection is visited. -/
def getAllRenderPromises (pages : List View) : List Nat :=
  (forEachView pages
    (fun promises view =>
      match view.paintTask with
      | some task =>
        if view.renderingState ≠ RenderingStates.PAUSED then
          (promises ++ [task.promise], JSResult.undef)
        else
          (promises, JSResult.undef)
      | none => (promises, (JSResult.undef : JSResult Bool)))
    ([] : List Nat)).1

/-- The "not yet rendered" test of `renderNextPage`:
`!view.textLayer || view.textLayer.textLayerDiv.childNodes.length < 1`. -/
def notRendered (view : View) : Bool :=
  match view.textLayer with
  | none => true
  | some tl => tl.textLayerDiv.childNodes < 1

/-- `renderNextPage()`: scans (in `forEachView`'s reverse order) for the first
view that is not yet rendered, records it as the module-level `renderingView`,
issues a render instruction for it, and stops. Returns the new `renderingView`
together with the list of render instructions issued. -/
def renderNextPage (pages : List View) (renderingView : Option View) :
    Option View × List View :=
  (forEachView pages
    (fun s view =>
      match view.textLayer with
      | none => ((some view, s.2 ++ [view]), JSResult.ret true)
      | some tl =>
        if tl.textLayerDiv.childNodes < 1 then
          ((some view, s.2 ++ [view]), JSResult.ret true)
        else
          (s, JSResult.undef))
    (renderingView, ([] : List View))).1

/-- `onResumeRender()`: the watchdog tick. If a view is recorded as currently
being rendered and its state is `PAUSED`, re-issue the render instruction for
exactly that view; otherwise do nothing. Returns the list of render
instructions issued by the tick. -/
def onResumeRender (renderingView : Option View) : List View :=
  match renderingView with
  | none => []
  | some view =>
    if view.renderingState = RenderingStates.PAUSED then [view] else []

/-- `Math.round`: rounds half-way cases up (towards positive infinity). -/
def jsRound (q : ℚ) : ℤ :=
  ⌊q + 1 / 2⌋

/-- The `<progress>` meter inside the loading dialog box; `value` is its
numeric value attribute. -/
structure Meter where
  value : ℤ
deriving DecidableEq, Repr

/-- The `loading-dlgbox` element: its `visible` attribute and the result of
`querySelector('progress')` on it. -/
structure Dlgbox where
  visible : Bool
  meter : Option Meter
deriving DecidableEq, Repr

/-- The part of the document the progress routine touches: the
`loading-dlgbox` element, when present. -/
structure Dom where
  dlgbox : Option Dlgbox
deriving DecidableEq, Repr

/-- `updateInitialLoadingProgress(progress)`. The `try` block covers only the
two lookups: when the dialog is absent, `getElementById` yields `null` and
`null.querySelector` throws, which is caught and the function returns. When
the dialog is present, `querySelector('progress')` merely returns `null` if
no meter exists — no throw — so a later `meter.value = …` (outside the
`try`) throws a TypeError that escapes the function, modelled as
`Except.error ()`. -/
def updateInitialLoadingProgress (dom : Dom) (progress : ℚ) :
    Except Unit Dom :=
  match dom.dlgbox with
  | none => Except.ok dom
  | some box =>
    if progress ≥ 100 then
      Except.ok { dlgbox := some { box with visible := false } }
    else
      match box.meter with
      | none => Except.error ()
      | some m =>
        Except.ok
          { dlgbox := some
              { visible := true, meter := some { m with value := jsRound progress } } }

/-- Whether a character is matched by the JavaScript regular-expression class
`\s` (WhiteSpace and LineTerminator code points, ECMA-262). -/
def jsIsWs (c : Char) : Bool :=
  c = ' ' || c = '\t' || c = '\n' || c = '\x0b' || c = '\x0c' || c = '\r' ||
  c.toNat = 0xA0 || c.toNat = 0x1680 ||
  (0x2000 ≤ c.toNat && c.toNat ≤ 0x200A) ||
  c.toNat = 0x2028 || c.toNat = 0x2029 || c.toNat = 0x202F ||
  c.toNat = 0x205F || c.toNat = 0x3000 || c.toNat = 0xFEFF

/-- Number of maximal whitespace runs in a character list; `prevWs` records
whether the previous character was whitespace. -/
def wsRunsAux : Bool → List Char → Nat
  | _, [] => 0
  | prevWs, c :: rest =>
    let w := jsIsWs c
    (if w && !prevWs then 1 else 0) + wsRunsAux w rest

/-- `text.split(/\s+/).length`: splitting at each maximal whitespace run
yields one more piece than there are runs (the empty string yields `[""]`,
of length 1, since the regular expression cannot match it). -/
def splitWsLen (text : List Char) : Nat :=
  wsRunsAux false text + 1

/-- The accumulation loop of `calculateAverageWordLength`, over pages
`1 … totalPages`. `lookup p` models
`document.querySelector('#viewer .page[data-page-number="p"]')`, yielding the
page container's `textContent` when the container exists. A missing container
is logged and skipped. Returns the final `(len, words)` accumulators; `len`
is an integer because the loop subtracts one unit per word after adding the
text length. -/
def calcLenWords (lookup : Nat → Option (List Char)) : Nat → ℤ × Nat
  | 0 => (0, 0)
  | n + 1 =>
    let lw := calcLenWords lookup n
    match lookup (n + 1) with
    | none => lw
    | some text =>
      let len := lw.1 + text.length
      let pwords := splitWsLen text
      (len - pwords, lw.2 + pwords)

/-- A JavaScript number as produced by `len / words`: finite (modelled
exactly as a rational), `Infinity`, `-Infinity`, or `NaN`. -/
inductive JsNum where
  | fin (q : ℚ)
  | posInf
  | negInf
  | nan
deriving DecidableEq, Repr

/-- JavaScript division of the two accumulators: `words = 0` yields `NaN`
when `len = 0` and a signed infinity otherwise; no exception is ever
raised. -/
def jsDiv (len : ℤ) (words : Nat) : JsNum :=
  if words = 0 then
    if len = 0 then JsNum.nan
    else if len > 0 then JsNum.posInf
    else JsNum.negInf
  else JsNum.fin ((len : ℚ) / (words : ℚ))

/-- JavaScript `>` against a (finite) constant: false on `NaN`. -/
def jsGtQ : JsNum → ℚ → Bool
  | JsNum.fin q, r => r < q
  | JsNum.posInf, _ => true
  | JsNum.negInf, _ => false
  | JsNum.nan, _ => false

/-- JavaScript `<` against a (finite) constant: false on `NaN`. -/
def jsLtQ : JsNum → ℚ → Bool
  | JsNum.fin q, r => q < r
  | JsNum.posInf, _ => false
  | JsNum.negInf, _ => true
  | JsNum.nan, _ => false

/-- `MAX_AVG_WORD_LENGTH = 10`. -/
def MAX_AVG_WORD_LENGTH : ℚ := 10

/-- `MAX_CACHE_SIZE = 100`: the page-count ceiling. -/
def MAX_CACHE_SIZE : Nat := 100

/-- `calculateAverageWordLength(totalPages)`: accumulate adjusted length and
word count over all locatable page containers and return their quotient. -/
def calculateAverageWordLength (lookup : Nat → Option (List Char))
    (totalPages : Nat) : JsNum :=
  let lw := calcLenWords lookup totalPages
  jsDiv lw.1 lw.2

/-- `wordLen > 1 && wordLen < MAX_AVG_WORD_LENGTH` — the eligibility decision
computed at the terminal transition of the second variant. -/
def enableHighlights (lookup : Nat → Option (List Char))
    (totalPages : Nat) : Bool :=
  let wordLen := calculateAverageWordLength lookup totalPages
  jsGtQ wordLen 1 && jsLtQ wordLen MAX_AVG_WORD_LENGTH

/-- The duplicate check of the handler: `rendered[num] === true` followed by
`rendered[num] = true`. The completion set is modelled as the list of marked
0-based indices in insertion order (the keys of the `rendered` object);
returns the new list together with whether the duplicate warning was
logged. -/
def markRendered (rendered : List ℤ) (num : ℤ) : List ℤ × Bool :=
  if num ∈ rendered then (rendered, true) else (rendered ++ [num], false)

/-- Aggregator state captured by the `onRendered` closure and the module
globals: the completion set, the watchdog timer, the view being rendered, and
whether the `textlayerrendered` subscription is still installed. -/
structure RunSt where
  rendered : List ℤ
  timerArmed : Bool
  renderingView : Option View
  subscribed : Bool
deriving DecidableEq, Repr

/-- Observable actions of one `onRendered` invocation: the duplicate warning,
the progress value passed to `updateInitialLoadingProgress`, the render
instructions issued, the eligibility alert, the removal of the
`textlayerrendered` subscription, and the `documentrendered` dispatch with
its `enableHighlights` detail. -/
structure EvOut where
  warned : Bool
  progress : ℚ
  forced : List View
  alerted : Bool
  unsubscribed : Bool
  dispatched : Bool
  detail : Option Bool
deriving DecidableEq, Repr

/-- The `onRendered` handler of the second variant (`onDocumentLoaded`'s
closure): stop the watchdog, mark the 0-based index, update progress with
`done / count * 100`, then either wait for in-flight renders, force the next
page (re-arming the watchdog), or — when all pages are done — compute the
eligibility heuristic, unsubscribe, and dispatch the terminal
`documentrendered` event. `pages` is the page collection read at this event;
`lookup` is the page-container query used by the heuristic. -/
def onRendered (count : Nat) (lookup : Nat → Option (List Char))
    (pages : List View) (st : RunSt) (pageNumber : ℤ) : RunSt × EvOut :=
  let num := pageNumber - 1
  let mr := markRendered st.rendered num
  let rendered := mr.1
  let warned := mr.2
  let done := rendered.length
  let progress := (done : ℚ) / (count : ℚ) * 100
  if (getAllRenderPromises pages).length > 0 then
    ({ st with rendered := rendered, timerArmed := false },
     { warned := warned, progress := progress, forced := [], alerted := false,
       unsubscribed := false, dispatched := false, detail := none })
  else if done < count then
    let rnp := renderNextPage pages st.renderingView
    ({ st with
        rendered := rendered, timerArmed := true, renderingView := rnp.1 },
     { warned := warned, progress := progress, forced := rnp.2,
       alerted := false, unsubscribed := false, dispatched := false,
       detail := none })
  else
    let enable := enableHighlights lookup count
    ({ st with rendered := rendered, timerArmed := false, subscribed := false },
     { warned := warned, progress := progress, forced := [],
       alerted := !enable, unsubscribed := true, dispatched := true,
       detail := some enable })

/-- Delivery of one `textlayerrendered` event: the handler runs only while
the subscription is installed. Each event carries its 1-based page number and
the page collection at that moment. -/
def deliver (count : Nat) (lookup : Nat → Option (List Char))
    (acc : RunSt × List EvOut) (ev : ℤ × List View) : RunSt × List EvOut :=
  if acc.1.subscribed then
    let r := onRendered count lookup ev.2 acc.1 ev.1
    (r.1, acc.2 ++ [r.2])
  else acc

/-- Delivery of a sequence of `textlayerrendered` events, collecting the
observable actions of each handler run. -/
def runEvents (count : Nat) (lookup : Nat → Option (List Char))
    (evs : List (ℤ × List View)) (st : RunSt) : RunSt × List EvOut :=
  evs.foldl (deliver count lookup) (st, [])

/-- The aggregator state right after `onDocumentLoaded` subscribes: empty
completion set, no timer, no recorded view, subscription installed. -/
def initSt : RunSt :=
  { rendered := [], timerArmed := false, renderingView := none,
    subscribed := true }

/-- Observable outcome of one document-render cycle: whether the capacity
notice was shown, whether the `textlayerrendered` subscription was installed,
and the actions of the delivered events. -/
structure CycleOut where
  capacityAlerted : Bool
  subscribed : Bool
  outs : List EvOut
deriving DecidableEq, Repr

/-- `onDocumentLoaded()` (second variant) as a whole cycle: a no-op unless
the viewer keeps text layers; aborts with the capacity notice when
`pagesCount > MAX_CACHE_SIZE`; otherwise subscribes and the given event
sequence is delivered to the `onRendered` closure. -/
def onDocumentLoaded (keepTextLayers : Bool) (pagesCount : Nat)
    (lookup : Nat → Option (List Char)) (evs : List (ℤ × List View)) :
    CycleOut :=
  if !keepTextLayers then
    { capacityAlerted := false, subscribed := false, outs := [] }
  else if pagesCount > MAX_CACHE_SIZE then
    { capacityAlerted := true, subscribed := false, outs := [] }
  else
    { capacityAlerted := false, subscribed := true,
      outs := (runEvents pagesCount lookup evs initSt).2 }

/-! ## Iterator lemmas -/

theorem forEachViewAux_eq_scan (pages : List View)
    (visit : σ → View → σ × JSResult ρ) :
    ∀ (n : Nat), n ≤ pages.length → ∀ (s : σ),
      forEachViewAux pages visit s n =
        forEachViewSpecScan ((pages.take n).reverse) visit s := by
  intro n
  induction n with
  | zero =>
    intro _ s
    simp [forEachViewAux, forEachViewSpecScan]
  | succ n ih =>
    intro h s
    have hn : n < pages.length := Nat.lt_of_succ_le h
    have hget : pages[n]? = some pages[n] := List.getElem?_eq_getElem hn
    have htake : (pages.take (n + 1)).reverse =
        pages[n] :: (pages.take n).reverse := by
      rw [List.take_succ, hget]
      simp
    rw [htake]
    simp only [forEachViewAux, hget]
    cases hv : visit s pages[n] with
    | mk s' r =>
      cases r with
      | ret r => simp [forEachViewSpecScan, hv]
      | undef => simp [forEachViewSpecScan, hv, ih (Nat.le_of_lt hn)]
      | exn => simp [forEachViewSpecScan, hv, ih (Nat.le_of_lt hn)]

theorem forEachView_eq_scan (pages : List View)
    (visit : σ → View → σ × JSResult ρ) (s : σ) :
    forEachView pages visit s = forEachViewSpecScan pages.reverse visit s := by
  have h := forEachViewAux_eq_scan pages visit pages.length le_rfl s
  simpa [forEachView, List.take_length] using h

theorem scan_renderNextPage (l : List View) :
    ∀ (rv : Option View) (acc : List View),
      forEachViewSpecScan l
        (fun s view =>
          match view.textLayer with
          | none => ((some view, s.2 ++ [view]), JSResult.ret true)
          | some tl =>
            if tl.textLayerDiv.childNodes < 1 then
              ((some view, s.2 ++ [view]), JSResult.ret true)
            else
              (s, JSResult.undef))
        (rv, acc) =
      match l.find? notRendered with
      | some v => ((some v, acc ++ [v]), some true)
      | none => ((rv, acc), none) := by
  induction l with
  | nil =>
    intro rv acc
    simp [forEachViewSpecScan]
  | cons v rest ih =>
    intro rv acc
    cases hv : v.textLayer with
    | none =>
      have hnr : notRendered v = true := by simp [notRendered, hv]
      rw [List.find?_cons_of_pos _ hnr]
      simp [forEachViewSpecScan, hv]
    | some tl =>
      by_cases hc : tl.textLayerDiv.childNodes < 1
      · have hnr : notRendered v = true := by simp [notRendered, hv, hc]
        rw [List.find?_cons_of_pos _ hnr]
        simp [forEachViewSpecScan, hv, hc]
      · have hnr : ¬ notRendered v = true := by simp [notRendered, hv, hc]
        rw [List.find?_cons_of_neg _ hnr]
        rw [← ih rv acc]
        simp [forEachViewSpecScan, hv, hc]

/-! ## Claim theorems: iterator, driver, watchdog -/

/-- C8: `forEachView` visits the pages from the last index down to the
first; a visit that raises is caught and iteration continues; the first
visit returning a defined value stops iteration with that value as overall
result; if every visit returns `undefined` or raises, the overall result is
`undefined` — i.e. `forEachView` coincides with the straight
skip-on-fault, stop-on-defined scan of the reversed page list. -/
theorem forEachView_reverse_scan (pages : List View)
    (visit : σ → View → σ × JSResult ρ) (s : σ) :
    forEachView pages visit s = forEachViewSpecScan pages.reverse visit s :=
  forEachView_eq_scan pages visit s

/-- C6: `renderNextPage` forces exactly the first page, scanning from the
last index to the first, whose text layer is absent or whose text-layer DOM
node has fewer than one child; it records that page as the rendering view
and issues exactly one render instruction, stopping the scan there. When no
page matches, it records and forces nothing. -/
theorem renderNextPage_first_unrendered (pages : List View)
    (rv : Option View) :
    renderNextPage pages rv =
      match pages.reverse.find? notRendered with
      | some v => (some v, [v])
      | none => (rv, []) := by
  rw [renderNextPage, forEachView_eq_scan, scan_renderNextPage]
  cases pages.reverse.find? notRendered <;> simp

/-- C7: a watchdog tick re-issues the render instruction for a view exactly
when that view is the recorded rendering view and its state is `PAUSED`; a
tick never issues more than one instruction. -/
theorem onResumeRender_paused_only (rv : Option View) :
    (∀ v : View, v ∈ onResumeRender rv ↔
      rv = some v ∧ v.renderingState = RenderingStates.PAUSED)
  ∧ (onResumeRender rv).length ≤ 1 := by
  constructor
  · intro v
    cases rv with
    | none => simp [onResumeRender]
    | some w =>
      by_cases hw : w.renderingState = RenderingStates.PAUSED
      · simp only [onResumeRender, if_pos hw, List.mem_singleton,
          Option.some.injEq]
        constructor
        · rintro rfl
          exact ⟨rfl, hw⟩
        · rintro ⟨rfl, _⟩
          rfl
      · simp only [onResumeRender, if_neg hw, List.not_mem_nil, false_iff,
          not_and, Option.some.injEq]
        rintro rfl
        exact hw
  · cases rv with
    | none => simp [onResumeRender]
    | some w =>
      by_cases hw : w.renderingState = RenderingStates.PAUSED <;>
        simp [onResumeRender, hw]

/-! ## Heuristic lemmas -/

theorem splitWsLen_pos (text : List Char) : 1 ≤ splitWsLen text := by
  simp [splitWsLen]

theorem calcLenWords_words_zero_iff (lookup : Nat → Option (List Char)) :
    ∀ n : Nat,
      (calcLenWords lookup n).2 = 0 ↔ ∀ p, 1 ≤ p → p ≤ n → lookup p = none := by
  intro n
  induction n with
  | zero =>
    simp only [calcLenWords, true_iff]
    intro p hp1 hp2
    omega
  | succ n ih =>
    cases h : lookup (n + 1) with
    | none =>
      simp only [calcLenWords, h]
      rw [ih]
      constructor
      · intro hall p hp1 hp2
        rcases Nat.lt_or_ge p (n + 1) with hlt | hge
        · exact hall p hp1 (by omega)
        · have : p = n + 1 := by omega
          rw [this]
          exact h
      · intro hall p hp1 hp2
        exact hall p hp1 (by omega)
    | some text =>
      simp only [calcLenWords, h]
      constructor
      · intro hz
        have := splitWsLen_pos text
        omega
      · intro hall
        have := hall (n + 1) (by omega) le_rfl
        rw [h] at this
        cases this

theorem calcLenWords_all_none (lookup : Nat → Option (List Char)) :
    ∀ n : Nat, (∀ p, 1 ≤ p → p ≤ n → lookup p = none) →
      calcLenWords lookup n = (0, 0) := by
  intro n
  induction n with
  | zero =>
    intro _
    rfl
  | succ n ih =>
    intro hall
    have h : lookup (n + 1) = none := hall (n + 1) (by omega) le_rfl
    have hrec : calcLenWords lookup n = (0, 0) :=
      ih fun p hp1 hp2 => hall p hp1 (by omega)
    simp [calcLenWords, h, hrec]

/-! ## Claim theorems: eligibility heuristic -/

/-- C3: the feature is classified eligible exactly when the computed average
word length is a finite value strictly between 1 and `MAX_AVG_WORD_LENGTH`
(10); an average of exactly 1 or exactly 10 is ineligible, and a zero-word
document (whose average is the non-finite result of dividing by zero, not an
exception) is ineligible. -/
theorem eligibility_open_interval (lookup : Nat → Option (List Char))
    (n : Nat) :
    (enableHighlights lookup n = true ↔
      ∃ q : ℚ, calculateAverageWordLength lookup n = JsNum.fin q ∧
        1 < q ∧ q < 10)
  ∧ (calculateAverageWordLength lookup n = JsNum.fin 1 →
      enableHighlights lookup n = false)
  ∧ (calculateAverageWordLength lookup n = JsNum.fin 10 →
      enableHighlights lookup n = false)
  ∧ ((calcLenWords lookup n).2 = 0 → enableHighlights lookup n = false) := by
  refine ⟨?_, ?_, ?_, ?_⟩
  · simp only [enableHighlights]
    cases havg : calculateAverageWordLength lookup n with
    | fin q => simp [jsGtQ, jsLtQ, MAX_AVG_WORD_LENGTH]
    | posInf => simp [jsGtQ, jsLtQ]
    | negInf => simp [jsGtQ, jsLtQ]
    | nan => simp [jsGtQ, jsLtQ]
  · intro havg
    simp [enableHighlights, havg, jsGtQ]
  · intro havg
    simp [enableHighlights, havg, jsGtQ, jsLtQ, MAX_AVG_WORD_LENGTH]
  · intro hw
    simp only [enableHighlights, calculateAverageWordLength, jsDiv, hw]
    rcases lt_trichotomy ((calcLenWords lookup n).1) 0 with hl | hl | hl
    · have hne : (calcLenWords lookup n).1 ≠ 0 := by omega
      have hnp : ¬ (calcLenWords lookup n).1 > 0 := by omega
      simp [hne, hnp, jsGtQ, jsLtQ]
    · simp [hl, jsGtQ, jsLtQ]
    · have hne : (calcLenWords lookup n).1 ≠ 0 := by omega
      simp [hne, hl, jsGtQ, jsLtQ]

/-- C10: every located page container contributes at least one word (the
empty text still splits into one piece), so the length accumulator — which
is decremented by the page's word count — can become negative (a single
empty page yields `len = -1`); the word count is zero exactly when no page
container is located at all, in which case the average is not a number
greater than 1 and the document is ineligible. -/
theorem heuristic_word_accounting (lookup : Nat → Option (List Char))
    (n : Nat) :
    (∀ text : List Char, 1 ≤ splitWsLen text)
  ∧ ((calcLenWords lookup n).2 = 0 ↔ ∀ p, 1 ≤ p → p ≤ n → lookup p = none)
  ∧ ((∀ p, 1 ≤ p → p ≤ n → lookup p = none) →
      jsGtQ (calculateAverageWordLength lookup n) 1 = false ∧
        enableHighlights lookup n = false)
  ∧ calcLenWords (fun _ => some []) 1 = (-1, 1) := by
  refine ⟨splitWsLen_pos, calcLenWords_words_zero_iff lookup n, ?_, by rfl⟩
  intro hall
  have h0 : calcLenWords lookup n = (0, 0) := calcLenWords_all_none lookup n hall
  have havg : calculateAverageWordLength lookup n = JsNum.nan := by
    simp [calculateAverageWordLength, h0, jsDiv]
  constructor
  · simp [havg, jsGtQ]
  · simp [enableHighlights, havg, jsGtQ]

/-! ## Claim theorems: progress UI -/

/-- C4 counterexample: with the dialog present but lacking a `<progress>`
element and a progress value below 100, `updateInitialLoadingProgress`
throws (the `meter.value` assignment on `null` sits outside the `try`
block), contradicting the claim that the update never throws for every
progress value and document state. -/
theorem progress_update_throws :
    updateInitialLoadingProgress
      { dlgbox := some { visible := false, meter := none } } 50 =
      Except.error () := by
  norm_num [updateInitialLoadingProgress]

/-- C4 amended: updating the progress indicator does not throw whenever the
dialog is absent (the lookup failure is swallowed by the `try` block), or
the progress is at least 100 (the meter is never touched), or the dialog has
a `<progress>` element; only the remaining case — dialog present without a
meter and progress below 100 — escapes with a TypeError. -/
theorem progress_update_no_throw (dom : Dom) (progress : ℚ)
    (h : dom.dlgbox = none ∨ 100 ≤ progress ∨
      ∃ box, dom.dlgbox = some box ∧ box.meter.isSome = true) :
    ∃ d : Dom, updateInitialLoadingProgress dom progress = Except.ok d := by
  rcases h with h | h | ⟨box, hbox, hm⟩
  · refine ⟨dom, ?_⟩
    unfold updateInitialLoadingProgress
    rw [h]
  · cases hd : dom.dlgbox with
    | none =>
      refine ⟨dom, ?_⟩
      unfold updateInitialLoadingProgress
      rw [hd]
    | some box =>
      refine ⟨{ dlgbox := some { box with visible := false } }, ?_⟩
      unfold updateInitialLoadingProgress
      rw [hd]
      simp [ge_iff_le, h]
  · cases hm' : box.meter with
    | none =>
      rw [hm'] at hm
      cases hm
    | some m =>
      by_cases hp : progress ≥ 100
      · refine ⟨{ dlgbox := some { box with visible := false } }, ?_⟩
        unfold updateInitialLoadingProgress
        rw [hbox]
        simp [hp]
      · refine ⟨⟨some ⟨true, some ⟨jsRound progress⟩⟩⟩, ?_⟩
        unfold updateInitialLoadingProgress
        rw [hbox]
        simp [hp, hm']

/-! ## Aggregator lemmas -/

theorem markRendered_of_mem (rendered : List ℤ) (num : ℤ)
    (h : num ∈ rendered) : markRendered rendered num = (rendered, true) := by
  simp [markRendered, h]

theorem markRendered_of_not_mem (rendered : List ℤ) (num : ℤ)
    (h : num ∉ rendered) :
    markRendered rendered num = (rendered ++ [num], false) := by
  simp [markRendered, h]

theorem mem_markRendered_fst (rendered : List ℤ) (num x : ℤ) :
    x ∈ (markRendered rendered num).1 ↔ x ∈ rendered ∨ x = num := by
  by_cases h : num ∈ rendered
  · rw [markRendered_of_mem _ _ h]
    exact ⟨Or.inl, fun hx => hx.elim id fun he => he ▸ h⟩
  · rw [markRendered_of_not_mem _ _ h]
    simp

theorem markRendered_fst_nodup (rendered : List ℤ) (num : ℤ)
    (h : rendered.Nodup) : (markRendered rendered num).1.Nodup := by
  by_cases hm : num ∈ rendered
  · rw [markRendered_of_mem _ _ hm]
    exact h
  · rw [markRendered_of_not_mem _ _ hm]
    simp [List.nodup_append, h, hm]

theorem onRendered_fst_rendered (count : Nat)
    (lookup : Nat → Option (List Char)) (pages : List View) (st : RunSt)
    (pageNumber : ℤ) :
    (onRendered count lookup pages st pageNumber).1.rendered =
      (markRendered st.rendered (pageNumber - 1)).1 := by
  simp only [onRendered]
  split
  · rfl
  · split
    · rfl
    · rfl

theorem onRendered_snd_warned (count : Nat)
    (lookup : Nat → Option (List Char)) (pages : List View) (st : RunSt)
    (pageNumber : ℤ) :
    (onRendered count lookup pages st pageNumber).2.warned =
      (markRendered st.rendered (pageNumber - 1)).2 := by
  simp only [onRendered]
  split
  · rfl
  · split
    · rfl
    · rfl

theorem onRendered_cases (count : Nat) (lookup : Nat → Option (List Char))
    (pages : List View) (st : RunSt) (pageNumber : ℤ) :
    ((onRendered count lookup pages st pageNumber).2.unsubscribed = true ∧
      (onRendered count lookup pages st pageNumber).2.dispatched = true ∧
      (onRendered count lookup pages st pageNumber).1.subscribed = false)
  ∨ ((onRendered count lookup pages st pageNumber).2.unsubscribed = false ∧
      (onRendered count lookup pages st pageNumber).2.dispatched = false ∧
      (onRendered count lookup pages st pageNumber).1.subscribed =
        st.subscribed) := by
  simp only [onRendered]
  split
  · right
    exact ⟨rfl, rfl, rfl⟩
  · split
    · right
      exact ⟨rfl, rfl, rfl⟩
    · left
      exact ⟨rfl, rfl, rfl⟩

theorem onRendered_terminal (count : Nat) (lookup : Nat → Option (List Char))
    (pages : List View) (st : RunSt) (pageNumber : ℤ)
    (hq : getAllRenderPromises pages = [])
    (hdone : count ≤ ((markRendered st.rendered (pageNumber - 1)).1).length) :
    onRendered count lookup pages st pageNumber =
      ({ st with
          rendered := (markRendered st.rendered (pageNumber - 1)).1,
          timerArmed := false, subscribed := false },
       { warned := (markRendered st.rendered (pageNumber - 1)).2,
         progress :=
           (((markRendered st.rendered (pageNumber - 1)).1.length : ℚ) /
             (count : ℚ)) * 100,
         forced := [], alerted := !enableHighlights lookup count,
         unsubscribed := true, dispatched := true,
         detail := some (enableHighlights lookup count) }) := by
  have h1 : ¬ (getAllRenderPromises pages).length > 0 := by simp [hq]
  have h2 : ¬ ((markRendered st.rendered (pageNumber - 1)).1).length < count :=
    Nat.not_lt.mpr hdone
  simp only [onRendered, if_neg h1, if_neg h2]

theorem deliver_not_subscribed (count : Nat)
    (lookup : Nat → Option (List Char)) (acc : RunSt × List EvOut)
    (ev : ℤ × List View) (h : acc.1.subscribed = false) :
    deliver count lookup acc ev = acc := by
  simp [deliver, h]

theorem deliver_subscribed (count : Nat) (lookup : Nat → Option (List Char))
    (acc : RunSt × List EvOut) (ev : ℤ × List View)
    (h : acc.1.subscribed = true) :
    deliver count lookup acc ev =
      ((onRendered count lookup ev.2 acc.1 ev.1).1,
       acc.2 ++ [(onRendered count lookup ev.2 acc.1 ev.1).2]) := by
  simp [deliver, h]

theorem foldl_deliver_not_subscribed (count : Nat)
    (lookup : Nat → Option (List Char)) :
    ∀ (evs : List (ℤ × List View)) (acc : RunSt × List EvOut),
      acc.1.subscribed = false →
      evs.foldl (deliver count lookup) acc = acc := by
  intro evs
  induction evs with
  | nil =>
    intro acc _
    rfl
  | cons ev evs ih =>
    intro acc h
    rw [List.foldl_cons, deliver_not_subscribed count lookup acc ev h]
    exact ih acc h

theorem deliver_fst_rendered_cases (count : Nat)
    (lookup : Nat → Option (List Char)) (acc : RunSt × List EvOut)
    (ev : ℤ × List View) :
    (deliver count lookup acc ev).1.rendered = acc.1.rendered ∨
    (deliver count lookup acc ev).1.rendered =
      (markRendered acc.1.rendered (ev.1 - 1)).1 := by
  by_cases hs : acc.1.subscribed = true
  · right
    rw [deliver_subscribed count lookup acc ev hs]
    exact onRendered_fst_rendered count lookup ev.2 acc.1 ev.1
  · left
    rw [deliver_not_subscribed count lookup acc ev (by simpa using hs)]

theorem foldl_deliver_nodup (count : Nat)
    (lookup : Nat → Option (List Char)) :
    ∀ (evs : List (ℤ × List View)) (acc : RunSt × List EvOut),
      acc.1.rendered.Nodup →
      (evs.foldl (deliver count lookup) acc).1.rendered.Nodup := by
  intro evs
  induction evs with
  | nil =>
    intro acc h
    exact h
  | cons ev evs ih =>
    intro acc h
    rw [List.foldl_cons]
    apply ih
    rcases deliver_fst_rendered_cases count lookup acc ev with hd | hd
    · rw [hd]
      exact h
    · rw [hd]
      exact markRendered_fst_nodup _ _ h

theorem foldl_deliver_mem (count : Nat) (lookup : Nat → Option (List Char)) :
    ∀ (evs : List (ℤ × List View)) (acc : RunSt × List EvOut) (x : ℤ),
      x ∈ (evs.foldl (deliver count lookup) acc).1.rendered →
      x ∈ acc.1.rendered ∨ x ∈ evs.map (fun e => e.1 - 1) := by
  intro evs
  induction evs with
  | nil =>
    intro acc x h
    exact Or.inl h
  | cons ev evs ih =>
    intro acc x h
    rw [List.foldl_cons] at h
    rcases ih _ x h with hmem | hmem
    · rcases deliver_fst_rendered_cases count lookup acc ev with hd | hd
      · rw [hd] at hmem
        exact Or.inl hmem
      · rw [hd] at hmem
        rcases (mem_markRendered_fst _ _ _).mp hmem with h' | h'
        · exact Or.inl h'
        · right
          simp [h']
    · right
      rw [List.map_cons]
      exact List.mem_cons_of_mem _ hmem

theorem runEvents_done_le_distinct (count : Nat)
    (lookup : Nat → Option (List Char)) (evs : List (ℤ × List View)) :
    (runEvents count lookup evs initSt).1.rendered.length ≤
      (evs.map fun e => e.1 - 1).dedup.length := by
  have hnodup : (runEvents count lookup evs initSt).1.rendered.Nodup :=
    foldl_deliver_nodup count lookup evs (initSt, []) (by simp [initSt])
  have hsub : ∀ x ∈ (runEvents count lookup evs initSt).1.rendered,
      x ∈ evs.map (fun e => e.1 - 1) := by
    intro x hx
    rcases foldl_deliver_mem count lookup evs (initSt, []) x hx with h | h
    · simp [initSt] at h
    · exact h
  calc (runEvents count lookup evs initSt).1.rendered.length
      = (runEvents count lookup evs initSt).1.rendered.toFinset.card :=
        (List.toFinset_card_of_nodup hnodup).symm
    _ ≤ (evs.map fun e => e.1 - 1).toFinset.card := by
        apply Finset.card_le_card
        intro x hx
        exact List.mem_toFinset.mpr (hsub x (List.mem_toFinset.mp hx))
    _ = (evs.map fun e => e.1 - 1).dedup.length := List.card_toFinset _

theorem foldl_deliver_flag_bound (count : Nat)
    (lookup : Nat → Option (List Char)) (p : EvOut → Bool)
    (hp : ∀ (pages : List View) (st : RunSt) (num : ℤ),
      (p (onRendered count lookup pages st num).2 = true →
        (onRendered count lookup pages st num).1.subscribed = false) ∧
      (p (onRendered count lookup pages st num).2 = false →
        (onRendered count lookup pages st num).1.subscribed =
          st.subscribed)) :
    ∀ (evs : List (ℤ × List View)) (acc : RunSt × List EvOut),
      ((acc.1.subscribed = true ∧ acc.2.countP p = 0) ∨
        (acc.1.subscribed = false ∧ acc.2.countP p ≤ 1)) →
      (evs.foldl (deliver count lookup) acc).2.countP p ≤ 1 := by
  intro evs
  induction evs with
  | nil =>
    intro acc h
    rcases h with ⟨_, h0⟩ | ⟨_, h1⟩
    · simp [h0]
    · simpa using h1
  | cons ev evs ih =>
    intro acc h
    rw [List.foldl_cons]
    rcases h with ⟨hs, h0⟩ | ⟨hs, h1⟩
    · have hdel := deliver_subscribed count lookup acc ev hs
      cases hflag : p (onRendered count lookup ev.2 acc.1 ev.1).2 with
      | true =>
        apply ih
        right
        constructor
        · rw [hdel]
          exact (hp ev.2 acc.1 ev.1).1 hflag
        · rw [hdel]
          simp [List.countP_append, List.countP_cons, h0, hflag]
      | false =>
        apply ih
        left
        constructor
        · rw [hdel]
          rw [(hp ev.2 acc.1 ev.1).2 hflag]
          exact hs
        · rw [hdel]
          simp [List.countP_append, List.countP_cons, h0, hflag]
    · rw [deliver_not_subscribed count lookup acc ev hs]
      exact ih acc (Or.inr ⟨hs, h1⟩)

/-! ## Claim theorems: completion aggregation -/

/-- C2: re-delivering an already-marked page index leaves the completion set
(and hence the done-count) unchanged, only the duplicate warning is logged;
and over every delivered event sequence the done-count never exceeds the
number of distinct 0-based page indices delivered. -/
theorem idempotent_completion_count (count : Nat)
    (lookup : Nat → Option (List Char)) (pages : List View) (st : RunSt)
    (pageNumber : ℤ) (evs : List (ℤ × List View))
    (hmem : pageNumber - 1 ∈ st.rendered) :
    (onRendered count lookup pages st pageNumber).1.rendered = st.rendered
  ∧ (onRendered count lookup pages st pageNumber).2.warned = true
  ∧ (runEvents count lookup evs initSt).1.rendered.length ≤
      (evs.map fun e => e.1 - 1).dedup.length := by
  refine ⟨?_, ?_, runEvents_done_le_distinct count lookup evs⟩
  · rw [onRendered_fst_rendered, markRendered_of_mem _ _ hmem]
  · rw [onRendered_snd_warned, markRendered_of_mem _ _ hmem]

theorem idempotent_completion_count_witness :
    (onRendered 1 (fun _ => none) []
      { rendered := [0], timerArmed := false, renderingView := none,
        subscribed := true } 1).1.rendered = [0]
  ∧ (onRendered 1 (fun _ => none) []
      { rendered := [0], timerArmed := false, renderingView := none,
        subscribed := true } 1).2.warned = true
  ∧ (runEvents 1 (fun _ => none) [] initSt).1.rendered.length ≤
      (([] : List (ℤ × List View)).map fun e => e.1 - 1).dedup.length :=
  idempotent_completion_count 1 (fun _ => none) []
    { rendered := [0], timerArmed := false, renderingView := none,
      subscribed := true } 1 [] (by decide)

/-- C1: when a page-rendered event makes the done-count reach the total page
count with no non-paused render in flight, the handler takes the terminal
transition: it forces no page, removes the `textlayerrendered` subscription,
and dispatches the `documentrendered` signal; the resulting state is
unsubscribed, so every subsequent event leaves state and outputs untouched —
no further force, unsubscription or dispatch. Moreover, over any full cycle
from the initial state, at most one delivered event unsubscribes and at most
one dispatches. -/
theorem terminal_transition_once (count : Nat)
    (lookup : Nat → Option (List Char)) (pages : List View) (st : RunSt)
    (pageNumber : ℤ) (evs : List (ℤ × List View))
    (hq : getAllRenderPromises pages = [])
    (hdone : ((markRendered st.rendered (pageNumber - 1)).1).length = count) :
    (onRendered count lookup pages st pageNumber).2.forced = []
  ∧ (onRendered count lookup pages st pageNumber).2.unsubscribed = true
  ∧ (onRendered count lookup pages st pageNumber).2.dispatched = true
  ∧ (onRendered count lookup pages st pageNumber).1.subscribed = false
  ∧ evs.foldl (deliver count lookup)
      ((onRendered count lookup pages st pageNumber).1,
        [(onRendered count lookup pages st pageNumber).2]) =
      ((onRendered count lookup pages st pageNumber).1,
        [(onRendered count lookup pages st pageNumber).2])
  ∧ (∀ evs0 : List (ℤ × List View),
      ((runEvents count lookup evs0 initSt).2.countP
        fun o => o.unsubscribed) ≤ 1 ∧
      ((runEvents count lookup evs0 initSt).2.countP
        fun o => o.dispatched) ≤ 1) := by
  have hterm := onRendered_terminal count lookup pages st pageNumber hq
    (le_of_eq hdone.symm)
  have hsub : (onRendered count lookup pages st pageNumber).1.subscribed =
      false := by
    rw [hterm]
  have hpu : ∀ (pages' : List View) (st' : RunSt) (num : ℤ),
      ((onRendered count lookup pages' st' num).2.unsubscribed = true →
        (onRendered count lookup pages' st' num).1.subscribed = false) ∧
      ((onRendered count lookup pages' st' num).2.unsubscribed = false →
        (onRendered count lookup pages' st' num).1.subscribed =
          st'.subscribed) := by
    intro pages' st' num
    rcases onRendered_cases count lookup pages' st' num with
      ⟨h1, _, h3⟩ | ⟨h1, _, h3⟩
    · exact ⟨fun _ => h3, fun hf => by rw [h1] at hf; cases hf⟩
    · exact ⟨fun ht => (by rw [h1] at ht; cases ht), fun _ => h3⟩
  have hpd : ∀ (pages' : List View) (st' : RunSt) (num : ℤ),
      ((onRendered count lookup pages' st' num).2.dispatched = true →
        (onRendered count lookup pages' st' num).1.subscribed = false) ∧
      ((onRendered count lookup pages' st' num).2.dispatched = false →
        (onRendered count lookup pages' st' num).1.subscribed =
          st'.subscribed) := by
    intro pages' st' num
    rcases onRendered_cases count lookup pages' st' num with
      ⟨_, h2, h3⟩ | ⟨_, h2, h3⟩
    · exact ⟨fun _ => h3, fun hf => by rw [h2] at hf; cases hf⟩
    · exact ⟨fun ht => (by rw [h2] at ht; cases ht), fun _ => h3⟩
  refine ⟨by rw [hterm], by rw [hterm], by rw [hterm], hsub,
    foldl_deliver_not_subscribed count lookup evs _ hsub, ?_⟩
  intro evs0
  exact ⟨foldl_deliver_flag_bound count lookup _ hpu evs0 (initSt, [])
      (Or.inl ⟨rfl, rfl⟩),
    foldl_deliver_flag_bound count lookup _ hpd evs0 (initSt, [])
      (Or.inl ⟨rfl, rfl⟩)⟩

theorem terminal_transition_once_witness :
    (onRendered 1 (fun _ => none) [] initSt 1).2.forced = []
  ∧ (onRendered 1 (fun _ => none) [] initSt 1).2.unsubscribed = true
  ∧ (onRendered 1 (fun _ => none) [] initSt 1).2.dispatched = true
  ∧ (onRendered 1 (fun _ => none) [] initSt 1).1.subscribed = false
  ∧ ([((2 : ℤ), ([] : List View))]).foldl (deliver 1 (fun _ => none))
      ((onRendered 1 (fun _ => none) [] initSt 1).1,
        [(onRendered 1 (fun _ => none) [] initSt 1).2]) =
      ((onRendered 1 (fun _ => none) [] initSt 1).1,
        [(onRendered 1 (fun _ => none) [] initSt 1).2])
  ∧ (∀ evs0 : List (ℤ × List View),
      ((runEvents 1 (fun _ => none) evs0 initSt).2.countP
        fun o => o.unsubscribed) ≤ 1 ∧
      ((runEvents 1 (fun _ => none) evs0 initSt).2.countP
        fun o => o.dispatched) ≤ 1) :=
  terminal_transition_once 1 (fun _ => none) [] initSt 1
    [((2 : ℤ), ([] : List View))] rfl (by decide)

/-- C4 amended witness: the dialog-absent case returns normally. -/
theorem progress_update_no_throw_witness :
    ∃ d : Dom, updateInitialLoadingProgress { dlgbox := none } 50 =
      Except.ok d :=
  progress_update_no_throw { dlgbox := none } 50 (Or.inl rfl)

/-- C5: when the page count exceeds `MAX_CACHE_SIZE` (100), the mechanism
shows the capacity notice and returns without subscribing to the
page-rendered signal; consequently no event is ever handled, so no page is
forced and no `documentrendered` signal is emitted, whatever events occur. -/
theorem capacity_abort (pagesCount : Nat) (lookup : Nat → Option (List Char))
    (evs : List (ℤ × List View)) (h : MAX_CACHE_SIZE < pagesCount) :
    onDocumentLoaded true pagesCount lookup evs =
      { capacityAlerted := true, subscribed := false, outs := [] } := by
  simp [onDocumentLoaded, h]

theorem capacity_abort_witness :
    onDocumentLoaded true 150 (fun _ => none) [((1 : ℤ), ([] : List View))] =
      { capacityAlerted := true, subscribed := false, outs := [] } :=
  capacity_abort 150 (fun _ => none) [((1 : ℤ), ([] : List View))] (by decide)

theorem onRendered_nil_more (count : Nat) (lookup : Nat → Option (List Char))
    (st : RunSt) (pageNumber : ℤ)
    (hlt : ((markRendered st.rendered (pageNumber - 1)).1).length < count) :
    onRendered count lookup [] st pageNumber =
      ({ st with
          rendered := (markRendered st.rendered (pageNumber - 1)).1,
          timerArmed := true, renderingView := st.renderingView },
       { warned := (markRendered st.rendered (pageNumber - 1)).2,
         progress :=
           (((markRendered st.rendered (pageNumber - 1)).1.length : ℚ) /
             (count : ℚ)) * 100,
         forced := [], alerted := false, unsubscribed := false,
         dispatched := false, detail := none }) := by
  have h1 : ¬ (getAllRenderPromises ([] : List View)).length > 0 := by
    simp [getAllRenderPromises, forEachView, forEachViewAux]
  simp only [onRendered, if_neg h1, if_pos hlt]
  rfl

/-- C9: with three pages, no render ever in flight (an empty page
collection) and three distinct page-rendered events in any order, the
progress indicator is updated with 33, 67 and 100 (after rounding) in
delivery order, and exactly one `documentrendered` dispatch occurs, at the
third distinct event. -/
theorem three_page_delivery (a b c : ℤ) (lookup : Nat → Option (List Char))
    (hab : a ≠ b) (hac : a ≠ c) (hbc : b ≠ c) :
    ((runEvents 3 lookup [(a, []), (b, []), (c, [])] initSt).2.map fun o =>
        jsRound o.progress) = [33, 67, 100]
  ∧ ((runEvents 3 lookup [(a, []), (b, []), (c, [])] initSt).2.map fun o =>
        o.dispatched) = [false, false, true] := by
  have hba : b - 1 ≠ a - 1 := fun h => hab (by omega)
  have hca : c - 1 ≠ a - 1 := fun h => hac (by omega)
  have hcb : c - 1 ≠ b - 1 := fun h => hbc (by omega)
  have m1 : markRendered initSt.rendered (a - 1) = ([a - 1], false) := by
    rw [markRendered_of_not_mem _ _ (by simp [initSt])]
    simp [initSt]
  have m2 : markRendered [a - 1] (b - 1) = ([a - 1, b - 1], false) := by
    rw [markRendered_of_not_mem _ _ (by simp [hba])]
    rfl
  have m3 : markRendered [a - 1, b - 1] (c - 1) =
      ([a - 1, b - 1, c - 1], false) := by
    rw [markRendered_of_not_mem _ _ (by simp [hca, hcb])]
    rfl
  have s1 : onRendered 3 lookup [] initSt a =
      (⟨[a - 1], true, none, true⟩,
       ⟨false, (1 : ℚ) / 3 * 100, [], false, false, false, none⟩) := by
    have h := onRendered_nil_more 3 lookup initSt a (by rw [m1]; simp)
    rw [m1] at h
    simpa [initSt] using h
  have s2 : onRendered 3 lookup [] ⟨[a - 1], true, none, true⟩ b =
      (⟨[a - 1, b - 1], true, none, true⟩,
       ⟨false, (2 : ℚ) / 3 * 100, [], false, false, false, none⟩) := by
    have h := onRendered_nil_more 3 lookup ⟨[a - 1], true, none, true⟩ b
      (by simp [m2])
    simpa [m2] using h
  have s3 : onRendered 3 lookup [] ⟨[a - 1, b - 1], true, none, true⟩ c =
      (⟨[a - 1, b - 1, c - 1], false, none, false⟩,
       ⟨false, (3 : ℚ) / 3 * 100, [], !enableHighlights lookup 3, true, true,
        some (enableHighlights lookup 3)⟩) := by
    have h := onRendered_terminal 3 lookup []
      ⟨[a - 1, b - 1], true, none, true⟩ c rfl (by simp [m3])
    simpa [m3] using h
  have d1 : deliver 3 lookup (initSt, []) (a, []) =
      (⟨[a - 1], true, none, true⟩,
       [⟨false, (1 : ℚ) / 3 * 100, [], false, false, false, none⟩]) := by
    rw [deliver_subscribed 3 lookup (initSt, []) (a, []) rfl]
    rw [show ((a : ℤ), ([] : List View)).2 = ([] : List View) from rfl,
      show ((initSt, ([] : List EvOut))).1 = initSt from rfl,
      show ((a : ℤ), ([] : List View)).1 = a from rfl, s1]
    rfl
  have d2 : deliver 3 lookup
      (⟨[a - 1], true, none, true⟩,
       [⟨false, (1 : ℚ) / 3 * 100, [], false, false, false, none⟩]) (b, []) =
      (⟨[a - 1, b - 1], true, none, true⟩,
       [⟨false, (1 : ℚ) / 3 * 100, [], false, false, false, none⟩,
        ⟨false, (2 : ℚ) / 3 * 100, [], false, false, false, none⟩]) := by
    rw [deliver_subscribed 3 lookup _ (b, []) rfl]
    rw [show ((b : ℤ), ([] : List View)).2 = ([] : List View) from rfl,
      show ((b : ℤ), ([] : List View)).1 = b from rfl]
    rw [show ((⟨[a - 1], true, none, true⟩ : RunSt),
      [(⟨false, (1 : ℚ) / 3 * 100, [], false, false, false, none⟩ :
        EvOut)]).1 = ⟨[a - 1], true, none, true⟩ from rfl, s2]
    rfl
  have d3 : deliver 3 lookup
      (⟨[a - 1, b - 1], true, none, true⟩,
       [⟨false, (1 : ℚ) / 3 * 100, [], false, false, false, none⟩,
        ⟨false, (2 : ℚ) / 3 * 100, [], false, false, false, none⟩]) (c, []) =
      (⟨[a - 1, b - 1, c - 1], false, none, false⟩,
       [⟨false, (1 : ℚ) / 3 * 100, [], false, false, false, none⟩,
        ⟨false, (2 : ℚ) / 3 * 100, [], false, false, false, none⟩,
        ⟨false, (3 : ℚ) / 3 * 100, [], !enableHighlights lookup 3, true, true,
         some (enableHighlights lookup 3)⟩]) := by
    rw [deliver_subscribed 3 lookup _ (c, []) rfl]
    rw [show ((c : ℤ), ([] : List View)).2 = ([] : List View) from rfl,
      show ((c : ℤ), ([] : List View)).1 = c from rfl]
    rw [show ((⟨[a - 1, b - 1], true, none, true⟩ : RunSt),
      [(⟨false, (1 : ℚ) / 3 * 100, [], false, false, false, none⟩ : EvOut),
       (⟨false, (2 : ℚ) / 3 * 100, [], false, false, false, none⟩ :
        EvOut)]).1 = ⟨[a - 1, b - 1], true, none, true⟩ from rfl, s3]
    rfl
  have hrun : runEvents 3 lookup [(a, []), (b, []), (c, [])] initSt =
      (⟨[a - 1, b - 1, c - 1], false, none, false⟩,
       [⟨false, (1 : ℚ) / 3 * 100, [], false, false, false, none⟩,
        ⟨false, (2 : ℚ) / 3 * 100, [], false, false, false, none⟩,
        ⟨false, (3 : ℚ) / 3 * 100, [], !enableHighlights lookup 3, true, true,
         some (enableHighlights lookup 3)⟩]) := by
    show List.foldl (deliver 3 lookup) (initSt, []) _ = _
    rw [List.foldl_cons, d1, List.foldl_cons, d2, List.foldl_cons, d3,
      List.foldl_nil]
  have jr1 : jsRound ((1 : ℚ) / 3 * 100) = 33 := by
    norm_num [jsRound, Int.floor_eq_iff]
  have jr2 : jsRound ((2 : ℚ) / 3 * 100) = 67 := by
    norm_num [jsRound, Int.floor_eq_iff]
  have jr3 : jsRound ((3 : ℚ) / 3 * 100) = 100 := by
    norm_num [jsRound, Int.floor_eq_iff]
  rw [hrun]
  constructor
  · simp only [List.map_cons, List.map_nil]
    rw [jr1, jr2, jr3]
  · simp

theorem three_page_delivery_witness :
    ((runEvents 3 (fun _ => none)
        [((3 : ℤ), ([] : List View)), ((2 : ℤ), ([] : List View)),
         ((1 : ℤ), ([] : List View))] initSt).2.map fun o =>
        jsRound o.progress) = [33, 67, 100]
  ∧ ((runEvents 3 (fun _ => none)
        [((3 : ℤ), ([] : List View)), ((2 : ℤ), ([] : List View)),
         ((1 : ℤ), ([] : List View))] initSt).2.map fun o =>
        o.dispatched) = [false, false, true] :=
  three_page_delivery 3 2 1 (fun _ => none) (by decide) (by decide)
    (by decide)

theorem eligibility_open_interval_witness :
    enableHighlights (fun _ => some ['a', 'b']) 1 = false
  ∧ enableHighlights (fun _ => none) 1 = false :=
  ⟨(eligibility_open_interval (fun _ => some ['a', 'b']) 1).2.1
      (by
        have h : calcLenWords (fun _ => some ['a', 'b']) 1 = (1, 1) := by
          decide
        simp [calculateAverageWordLength, h, jsDiv]),
   (eligibility_open_interval (fun _ => none) 1).2.2.2 (by decide)⟩

theorem heuristic_word_accounting_witness :
    jsGtQ (calculateAverageWordLength (fun _ => none) 1) 1 = false ∧
      enableHighlights (fun _ => none) 1 = false :=
  (heuristic_word_accounting (fun _ => none) 1).2.2.1 fun _ _ _ => rfl

end FullTextRender
